import Mathlib

/-
  Shallow embedding of the MCP tool-registry repository.

  Layers modelled (file, symbol):
  - database/mongodb_client.py     : MongoDBClient.search_documents, count_documents
  - mcp_server/tools/mongodb_search_tool.py : MongoDBSearchInput, MongoDBSearchTool.execute
  - mcp_server/handlers/tool_handler.py     : ToolHandler.execute_tool
  - mcp_server/server.py           : the /execute endpoint (metadata merge, HTTP 200)
  - mcp_client/client.py           : MCPClient.search_documents, process_prompt

  Python exceptions are modelled with Except; Python dicts (JSON objects)
  are association lists of string keys with Python insertion semantics
  (assignment to an existing key updates in place, new keys append).
  The external document store is a parameter (a Store structure of
  functions), so every store behaviour, including raising, is quantified.
-/

/-- JSON-like runtime values flowing through the system. `vId` stands for a
store-native identifier (ObjectId); `str` applied to it yields its string. -/
inductive Value where
  | vNull : Value
  | vBool : Bool → Value
  | vInt : Int → Value
  | vStr : String → Value
  | vId : String → Value
  | vList : List Value → Value
  | vObj : List (String × Value) → Value

open Value

/-- A Python dict with string keys, in insertion order. -/
abbrev Dict := List (String × Value)

/-- Lookup of a key in a dict (first match). -/
def Dict.get? (d : Dict) (k : String) : Option Value :=
  match d with
  | [] => none
  | (k', v) :: rest => if k' = k then some v else Dict.get? rest k

/-- Python dict assignment d[k] = v: updates in place if the key exists,
otherwise appends at the end. -/
def Dict.insert (d : Dict) (k : String) (v : Value) : Dict :=
  if d.any (fun p => decide (p.1 = k)) then
    d.map (fun p => if p.1 = k then (k, v) else p)
  else d ++ [(k, v)]

/-- The keys of a dict, in order. -/
def Dict.keys (d : Dict) : List String := d.map Prod.fst

/-- Python truthiness of a value (used by `if search_input.fields:` and
`if result.get("metadata"):`). -/
def truthy : Value → Bool
  | vNull => false
  | vBool b => b
  | vInt n => decide (n ≠ 0)
  | vStr s => decide (s ≠ "")
  | vId _ => true
  | vList [] => false
  | vList (_ :: _) => true
  | vObj [] => false
  | vObj (_ :: _) => true

/-- Approximation of Python str() as used on document identifiers
(mongodb_client.py line 48: doc with key _id gets str applied to it).
Container renderings are abstract names; only identifier-like values
reach this function in the modelled paths. -/
def pyStr : Value → String
  | vNull => "None"
  | vBool b => if b then "True" else "False"
  | vInt n => toString n
  | vStr s => s
  | vId s => s
  | vList _ => "<list>"
  | vObj _ => "<dict>"

/-- Errors raised by the underlying pymongo collection: PyMongoError or
any other exception, each carrying its str() message. -/
inductive StoreErr where
  | pymongo : String → StoreErr
  | other : String → StoreErr

/-- The str() of a store exception. -/
def StoreErr.msg : StoreErr → String
  | StoreErr.pymongo m => m
  | StoreErr.other m => m

/-- External document store behaviour: the underlying collection find
(already skipped/limited) and the underlying collection count, both of
which may raise. -/
structure Store where
  find : Dict → Int → Int → Except StoreErr (List Dict)
  countRaw : Dict → Except StoreErr Nat

/-- Observable store invocations, for counting round trips. -/
inductive StoreCall where
  | find : Dict → Int → Int → StoreCall
  | count : Dict → StoreCall

/-- Conversion applied per returned document by MongoDBClient: if the
document has key _id, its value is replaced by str of it (mongodb_client.py
lines 45-49). -/
def stringifyId (d : Dict) : Dict :=
  match Dict.get? d "_id" with
  | some v => Dict.insert d "_id" (vStr (pyStr v))
  | none => d

namespace MongoDBClient

/-- MongoDBClient.search_documents (mongodb_client.py lines 29-61): runs the
find, stringifies identifiers; a PyMongoError is logged and re-raised, any
other exception propagates as well. -/
def search_documents (st : Store) (query : Dict) (limit skip : Int) :
    Except StoreErr (List Dict) :=
  match st.find query limit skip with
  | Except.ok docs => Except.ok (docs.map stringifyId)
  | Except.error e => Except.error e

/-- MongoDBClient.count_documents (mongodb_client.py lines 75-83): a
PyMongoError from the underlying count is caught and 0 is returned; any
other exception propagates. -/
def count_documents (st : Store) (query : Dict) : Except StoreErr Nat :=
  match st.countRaw query with
  | Except.ok n => Except.ok n
  | Except.error (StoreErr.pymongo _) => Except.ok 0
  | Except.error (StoreErr.other m) => Except.error (StoreErr.other m)

end MongoDBClient

/-- Raw keyword inputs to MongoDBSearchInput(**inputs): each known field is
either absent or bound to an arbitrary JSON value. -/
structure RawInputs where
  query : Option Value
  limit : Option Value
  skip : Option Value
  fields : Option Value

/-- Validated inputs (mongodb_search_tool.py lines 7-12): query a dict
defaulting to empty, limit an int in 1..100 defaulting to 10, skip an int
at least 0 defaulting to 0, fields an optional list of strings defaulting
to None. -/
structure MongoDBSearchInput where
  query : Dict
  limit : Int
  skip : Int
  fields : Option (List String)

/-- All elements are strings, extracted. -/
def allStrings : List Value → Option (List String)
  | [] => some []
  | vStr s :: rest => (allStrings rest).map (fun l => s :: l)
  | _ => none

/-- Pydantic validation of the query field: must be a dict, default empty. -/
def vQuery : Option Value → Except String Dict
  | none => Except.ok []
  | some (vObj d) => Except.ok d
  | some _ => Except.error "query: input is not a valid dict"

/-- Pydantic validation of the limit field: int, ge 1, le 100, default 10. -/
def vLimit : Option Value → Except String Int
  | none => Except.ok 10
  | some (vInt n) =>
      if n < 1 then Except.error "limit: input should be greater than or equal to 1"
      else if 100 < n then Except.error "limit: input should be less than or equal to 100"
      else Except.ok n
  | some _ => Except.error "limit: input is not a valid integer"

/-- Pydantic validation of the skip field: int, ge 0, default 0. -/
def vSkip : Option Value → Except String Int
  | none => Except.ok 0
  | some (vInt n) =>
      if n < 0 then Except.error "skip: input should be greater than or equal to 0"
      else Except.ok n
  | some _ => Except.error "skip: input is not a valid integer"

/-- Pydantic validation of the fields field: list of strings, default None. -/
def vFields : Option Value → Except String (Option (List String))
  | none => Except.ok none
  | some (vList l) =>
      match allStrings l with
      | some ss => Except.ok (some ss)
      | none => Except.error "fields: items must be valid strings"
  | some _ => Except.error "fields: input is not a valid list"

/-- MongoDBSearchInput(**inputs): every field validated; raises (returns
error) if any field is invalid. -/
def validate (i : RawInputs) : Except String MongoDBSearchInput :=
  match vQuery i.query with
  | Except.error e => Except.error e
  | Except.ok q =>
    match vLimit i.limit with
    | Except.error e => Except.error e
    | Except.ok l =>
      match vSkip i.skip with
      | Except.error e => Except.error e
      | Except.ok s =>
        match vFields i.fields with
        | Except.error e => Except.error e
        | Except.ok f => Except.ok ⟨q, l, s, f⟩

/-- Field projection of one document (mongodb_search_tool.py lines 89-96):
keep requested keys present in the document, then always copy _id when the
document has one. -/
def filterFields (fields : List String) (doc : Dict) : Dict :=
  let base := fields.foldl
    (fun acc f =>
      match Dict.get? doc f with
      | some v => Dict.insert acc f v
      | none => acc) []
  match Dict.get? doc "_id" with
  | some v => Dict.insert base "_id" v
  | none => base

/-- The conditional projection (mongodb_search_tool.py line 86): applied
only when fields is truthy, i.e. a non-empty list; None and the empty list
leave the documents untouched. -/
def applyFilter (fields : Option (List String)) (docs : List Dict) : List Dict :=
  match fields with
  | some (f :: fs) => docs.map (filterFields (f :: fs))
  | _ => docs

/-- ToolOutput (base_tool.py lines 9-14). -/
structure ToolOutput where
  success : Bool
  data : Option Value := none
  error : Option String := none
  metadata : Dict := []

/-- Success metadata (mongodb_search_tool.py lines 103-110), keys in
source order. -/
def successMeta (si : MongoDBSearchInput) (total : Nat) (returned : Nat) : Dict :=
  [("total_count", vInt total),
   ("returned_count", vInt returned),
   ("query", vObj si.query),
   ("limit", vInt si.limit),
   ("skip", vInt si.skip),
   ("has_more", vBool (decide ((total : Int) > si.skip + (returned : Int))))]

/-- inputs.get("query", empty dict), used in the failure metadata
(mongodb_search_tool.py line 129). -/
def rawQuery (i : RawInputs) : Value :=
  match i.query with
  | some v => v
  | none => vObj []

namespace MongoDBSearchTool

/-- The body of the try block of MongoDBSearchTool.execute
(mongodb_search_tool.py lines 69-120), instrumented with the list of store
calls actually made. An Except.error is an exception escaping the body. -/
def executeBodyTr (st : Store) (i : RawInputs) :
    Except String ToolOutput × List StoreCall :=
  match validate i with
  | Except.error e => (Except.error e, [])
  | Except.ok si =>
    match MongoDBClient.search_documents st si.query si.limit si.skip with
    | Except.error e => (Except.error (StoreErr.msg e), [StoreCall.find si.query si.limit si.skip])
    | Except.ok docs =>
      let docsF := applyFilter si.fields docs
      match MongoDBClient.count_documents st si.query with
      | Except.error e =>
          (Except.error (StoreErr.msg e),
           [StoreCall.find si.query si.limit si.skip, StoreCall.count si.query])
      | Except.ok total =>
          (Except.ok
            { success := true
              data := some (vList (docsF.map vObj))
              metadata := successMeta si total docsF.length },
           [StoreCall.find si.query si.limit si.skip, StoreCall.count si.query])

/-- MongoDBSearchTool.execute with its catch-all except clause
(mongodb_search_tool.py lines 122-130), paired with the store-call trace. -/
def executeTr (st : Store) (i : RawInputs) : ToolOutput × List StoreCall :=
  match executeBodyTr st i with
  | (Except.ok out, tr) => (out, tr)
  | (Except.error e, tr) =>
      ({ success := false
         error := some ("MongoDB search failed: " ++ e)
         metadata := [("query", rawQuery i)] }, tr)

/-- MongoDBSearchTool.execute, result only. -/
def execute (st : Store) (i : RawInputs) : ToolOutput :=
  (executeTr st i).1

end MongoDBSearchTool

/-- A registered tool implementation as seen by the handler: it may raise
(contract violation), hence the Except codomain. -/
abbrev ToolImpl := RawInputs → Except String ToolOutput

/-- ToolHandler state (tool_handler.py line 13): a dict from name to tool. -/
structure ToolHandler where
  tools : List (String × ToolImpl)

namespace ToolHandler

/-- self.tools.get(tool_name) (tool_handler.py line 55). -/
def getTool (h : ToolHandler) (name : String) : Option ToolImpl :=
  (h.tools.find? (fun p => p.1 == name)).map Prod.snd

/-- list(self.tools.keys()) (tool_handler.py line 76). -/
def availableTools (h : ToolHandler) : List String := h.tools.map Prod.fst

/-- ToolHandler.execute_tool (tool_handler.py lines 57-98): unknown name
gives the not-found envelope with the registered names; a raising tool is
caught and wrapped in the execution-error envelope. -/
def execute_tool (h : ToolHandler) (name : String) (i : RawInputs) : ToolOutput :=
  match getTool h name with
  | none =>
      { success := false
        error := some ("Tool '" ++ name ++ "' not found")
        metadata := [("available_tools", vList ((availableTools h).map vStr))] }
  | some t =>
      match t i with
      | Except.ok r => r
      | Except.error e =>
          { success := false
            error := some ("Tool execution error: " ++ e)
            metadata := [("tool_name", vStr name)] }

end ToolHandler

/-- The MongoDB search tool as registered in the handler; execute is total,
so it never raises into the handler. -/
def mongodbToolImpl (st : Store) : ToolImpl :=
  fun i => Except.ok (MongoDBSearchTool.execute st i)

/-- The default handler (tool_handler.py lines 16-24): only mongodb_search
is registered. -/
def defaultHandler (st : Store) : ToolHandler :=
  ⟨[("mongodb_search", mongodbToolImpl st)]⟩

/-- MCPRequest (server.py lines 11-15): a decoded /execute body. -/
structure MCPRequest where
  tool_name : String
  inputs : RawInputs
  metadata : Dict

/-- settings.MCP_VERSION (config/settings.py line 20). -/
def MCP_VERSION : String := "1.0.0"

/-- MCPResponse (server.py lines 17-23). -/
structure MCPResponse where
  success : Bool
  data : Option Value := none
  error : Option String := none
  metadata : Dict := []
  mcp_version : String := MCP_VERSION

/-- Python double-splat merge of two dicts (server.py line 121): start from
the first, then write every entry of the second over it. -/
def mergeDicts (a b : Dict) : Dict :=
  b.foldl (fun acc p => Dict.insert acc p.1 p.2) a

/-- The /execute endpoint (server.py lines 98-144), parameterized over the
dispatch it awaits (which may raise, covered by its except clause). It
returns the HTTP status code and the response body; FastAPI sends a
response_model body with status 200 on both the normal return and the
except-clause return. -/
def serverExecuteHTTP (dispatch : MCPRequest → Except String ToolOutput)
    (req : MCPRequest) : Nat × MCPResponse :=
  match dispatch req with
  | Except.ok r =>
      (200,
       { success := r.success
         data := r.data
         error := r.error
         metadata := mergeDicts req.metadata r.metadata })
  | Except.error e =>
      (200,
       { success := false
         error := some ("Tool execution failed: " ++ e)
         metadata := [("tool_name", vStr req.tool_name)] })

/-- Python str.lower as used on prompts (client.py line 230). -/
def pyLower (s : String) : String := s.map Char.toLower

/-- Python str.strip as used on prompts (client.py line 230). -/
def pyStrip (s : String) : String := s.trim

/-- The HTTP transport of the client: a POST of a JSON body that either
returns the decoded response object or raises. -/
abbrev Transport := Value → Except String Dict

/-- One regex clause of the prompt query (client.py lines 236-238). -/
def regexClause (field : String) (terms : String) : Value :=
  vObj [(field, vObj [("$regex", vStr terms), ("$options", vStr "i")])]

/-- The query built by process_prompt (client.py lines 234-240). -/
def promptQuery (terms : String) : Dict :=
  [("$or", vList [regexClause "content" terms,
                  regexClause "title" terms,
                  regexClause "description" terms])]

/-- The request body built by MCPClient.search_documents (client.py lines
125-139); fields is appended to inputs only when truthy. -/
def buildSearchRequest (query : Dict) (limit skip : Int)
    (fields : Option (List String)) : Value :=
  vObj [("tool_name", vStr "mongodb_search"),
        ("inputs", vObj
          ([("query", vObj query), ("limit", vInt limit), ("skip", vInt skip)] ++
           (match fields with
            | some (f :: fs) => [("fields", vList ((f :: fs).map vStr))]
            | _ => []))),
        ("metadata", vObj [("client_request", vBool true), ("timestamp", vNull)])]

namespace MCPClient

/-- MCPClient.search_documents (client.py lines 107-164), instrumented with
the requests sent: posts the request; on a transport exception it returns
the fallback envelope with empty metadata. -/
def search_documents (t : Transport) (query : Dict) (limit skip : Int)
    (fields : Option (List String)) : Dict × List Value :=
  let req := buildSearchRequest query limit skip fields
  match t req with
  | Except.ok result => (result, [req])
  | Except.error e =>
      ([("success", vBool false), ("error", vStr e),
        ("data", vList []), ("metadata", vObj [])], [req])

/-- Metadata enrichment of process_prompt (client.py lines 248-250): only
when result.get("metadata") is truthy are original_prompt and query_type
written into it. A truthy non-dict metadata makes the item assignment
raise, which the except clause (lines 254-261) converts to the
prompt-processing failure envelope. -/
def promptPostProcess (prompt : String) (result : Dict) : Dict :=
  match Dict.get? result "metadata" with
  | some (vObj (kv :: kvs)) =>
      Dict.insert result "metadata"
        (vObj (Dict.insert
                (Dict.insert (kv :: kvs) "original_prompt" (vStr prompt))
                "query_type" (vStr "text_search")))
  | some v =>
      if truthy v then
        [("success", vBool false),
         ("error", vStr "Prompt processing failed: metadata does not support item assignment"),
         ("data", vList []),
         ("metadata", vObj [("original_prompt", vStr prompt)])]
      else result
  | none => result

/-- MCPClient.process_prompt (client.py lines 214-261): lower-cases and
strips the prompt, builds the three-field regex OR query, searches with
limit 20, then conditionally enriches the metadata. -/
def process_prompt (t : Transport) (prompt : String) : Dict × List Value :=
  let terms := pyStrip (pyLower prompt)
  let res := search_documents t (promptQuery terms) 20 0 none
  (promptPostProcess prompt res.1, res.2)

end MCPClient

/-
  Concrete fixtures for witnesses and counterexamples.
-/

/-- A small concrete document. -/
def docN (n : Nat) : Dict :=
  [("_id", vStr (toString n)), ("title", vStr "t")]

/-- Twenty-five matching documents. -/
def docs25 : List Dict := (List.range 25).map docN

/-- A store holding 25 matching records, honouring skip and limit. -/
def store25 : Store :=
  { find := fun _ limit skip => Except.ok ((docs25.drop skip.toNat).take limit.toNat)
    countRaw := fun _ => Except.ok 25 }

/-- A store whose find succeeds but whose underlying count raises a
PyMongoError. -/
def storeCountFail : Store :=
  { find := fun _ _ _ => Except.ok [[("_id", vStr "x"), ("a", vInt 1)]]
    countRaw := fun _ => Except.error (StoreErr.pymongo "connection lost") }

/-- A store whose find raises a PyMongoError. -/
def storeFindFail : Store :=
  { find := fun _ _ _ => Except.error (StoreErr.pymongo "no reachable servers")
    countRaw := fun _ => Except.ok 0 }

/-- A store whose underlying count raises a non-PyMongoError exception. -/
def storeCountOtherFail : Store :=
  { find := fun _ _ _ => Except.ok []
    countRaw := fun _ => Except.error (StoreErr.other "interrupted") }

/-- Well-formed raw inputs: empty query, limit 10, skip 0, no fields. -/
def basicInputs : RawInputs :=
  ⟨some (vObj []), some (vInt 10), some (vInt 0), none⟩

/-- A transport that always raises (network down). -/
def downTransport : Transport := fun _ => Except.error "Connection refused"

/-- A transport answering every request with a fixed successful envelope
whose metadata is the non-empty object with key a. -/
def okTransport : Transport :=
  fun _ => Except.ok
    [("success", vBool true), ("data", vList []), ("error", vNull),
     ("metadata", vObj [("a", vInt 1)])]

/-
  Lemmas about the dict operations.
-/

theorem Dict.get?_replace_ne (d : Dict) (k k' : String) (v : Value) (h : k' ≠ k) :
    Dict.get? (d.map (fun p => if p.1 = k then (k, v) else p)) k' = Dict.get? d k' := by
  induction d with
  | nil => rfl
  | cons a rest ih =>
    obtain ⟨a1, a2⟩ := a
    simp only [List.map_cons]
    by_cases ha : a1 = k
    · rw [if_pos ha]
      have h1 : ¬ (k = k') := fun hh => h hh.symm
      have h2 : ¬ (a1 = k') := fun hh => h1 (ha ▸ hh)
      simp [Dict.get?, h1, h2, ih]
    · rw [if_neg ha]
      simp [Dict.get?, ih]

theorem Dict.get?_replace_self (d : Dict) (k : String) (v : Value)
    (h : d.any (fun p => decide (p.1 = k)) = true) :
    Dict.get? (d.map (fun p => if p.1 = k then (k, v) else p)) k = some v := by
  induction d with
  | nil => simp at h
  | cons a rest ih =>
    obtain ⟨a1, a2⟩ := a
    simp only [List.map_cons]
    by_cases ha : a1 = k
    · rw [if_pos ha]
      simp [Dict.get?]
    · rw [if_neg ha]
      simp only [List.any_cons, Bool.or_eq_true, decide_eq_true_eq] at h
      rcases h with h | h
      · exact absurd h ha
      · simp [Dict.get?, ha, ih h]

theorem Dict.get?_append_single (d : Dict) (k k' : String) (v : Value) :
    Dict.get? (d ++ [(k, v)]) k' =
      if (Dict.get? d k').isSome then Dict.get? d k'
      else if k = k' then some v else none := by
  induction d with
  | nil => simp [Dict.get?]
  | cons a rest ih =>
    obtain ⟨a1, a2⟩ := a
    by_cases ha : a1 = k'
    · simp [Dict.get?, ha]
    · simp [Dict.get?, ha, ih]

theorem Dict.get?_eq_none_of_not_any (d : Dict) (k : String)
    (h : d.any (fun p => decide (p.1 = k)) = false) : Dict.get? d k = none := by
  induction d with
  | nil => rfl
  | cons a rest ih =>
    obtain ⟨a1, a2⟩ := a
    simp only [List.any_cons, Bool.or_eq_false_iff, decide_eq_false_iff_not] at h
    simp [Dict.get?, h.1, ih h.2]

theorem Dict.get?_insert (d : Dict) (k k' : String) (v : Value) :
    Dict.get? (Dict.insert d k v) k' = if k' = k then some v else Dict.get? d k' := by
  unfold Dict.insert
  by_cases hmem : d.any (fun p => decide (p.1 = k)) = true
  · rw [if_pos hmem]
    by_cases hk : k' = k
    · subst hk
      rw [if_pos rfl, Dict.get?_replace_self d k' v hmem]
    · rw [if_neg hk, Dict.get?_replace_ne d k k' v hk]
  · rw [if_neg hmem]
    rw [Dict.get?_append_single]
    by_cases hk : k' = k
    · subst hk
      have hmem' : d.any (fun p => decide (p.1 = k')) = false := by
        rwa [Bool.not_eq_true] at hmem
      rw [Dict.get?_eq_none_of_not_any d k' hmem']
      simp
    · have : ¬ (k = k') := fun hh => hk hh.symm
      rw [if_neg hk, if_neg this]
      cases hg : Dict.get? d k' <;> simp [hg]

theorem Dict.get?_eq_none_of_not_mem (d : Dict) (k : String) (h : k ∉ Dict.keys d) :
    Dict.get? d k = none := by
  induction d with
  | nil => rfl
  | cons a rest ih =>
    obtain ⟨a1, a2⟩ := a
    simp only [Dict.keys, List.map_cons, List.mem_cons] at h
    push_neg at h
    have ha : ¬ (a1 = k) := fun hh => h.1 hh.symm
    simp [Dict.get?, ha]
    exact ih (by simpa [Dict.keys] using h.2)

theorem filterFoldl_get? (doc : Dict) (fields : List String) (acc : Dict) (k : String) :
    Dict.get? (fields.foldl
      (fun a f =>
        match Dict.get? doc f with
        | some v => Dict.insert a f v
        | none => a) acc) k =
    if k ∈ fields ∧ (Dict.get? doc k).isSome then Dict.get? doc k else Dict.get? acc k := by
  induction fields generalizing acc with
  | nil => simp
  | cons f fs ih =>
    simp only [List.foldl_cons]
    rw [ih]
    by_cases hmem : k ∈ fs ∧ (Dict.get? doc k).isSome
    · rw [if_pos hmem, if_pos ⟨List.mem_cons_of_mem f hmem.1, hmem.2⟩]
    · rw [if_neg hmem]
      by_cases hfk : f = k
      · subst hfk
        cases hg : Dict.get? doc f with
        | some v =>
          show Dict.get? (Dict.insert acc f v) f =
            if f ∈ f :: fs ∧ (Option.isSome (some v)) = true then some v else Dict.get? acc f
          rw [Dict.get?_insert, if_pos rfl, if_pos ⟨List.mem_cons_self f fs, rfl⟩]
        | none =>
          show Dict.get? acc f =
            if f ∈ f :: fs ∧ (Option.isSome (none : Option Value)) = true
            then (none : Option Value) else Dict.get? acc f
          rw [if_neg (by rintro ⟨_, hs⟩; simp at hs)]
      · have hn : ¬ (k ∈ f :: fs ∧ (Dict.get? doc k).isSome) := by
          rintro ⟨hm, hs⟩
          rcases List.mem_cons.mp hm with hm | hm
          · exact hfk hm.symm
          · exact hmem ⟨hm, hs⟩
        cases hg : Dict.get? doc f with
        | some v =>
          show Dict.get? (Dict.insert acc f v) k =
            if k ∈ f :: fs ∧ (Dict.get? doc k).isSome = true
            then Dict.get? doc k else Dict.get? acc k
          rw [if_neg hn, Dict.get?_insert, if_neg (fun hh => hfk hh.symm)]
        | none =>
          show Dict.get? acc k =
            if k ∈ f :: fs ∧ (Dict.get? doc k).isSome = true
            then Dict.get? doc k else Dict.get? acc k
          rw [if_neg hn]

theorem filterFields_get? (fields : List String) (doc : Dict) (k : String) :
    Dict.get? (filterFields fields doc) k =
      if (k ∈ fields ∨ k = "_id") ∧ (Dict.get? doc k).isSome
      then Dict.get? doc k else none := by
  unfold filterFields
  cases hid : Dict.get? doc "_id" with
  | some v =>
    simp only
    rw [Dict.get?_insert]
    by_cases hk : k = "_id"
    · subst hk
      rw [if_pos rfl, if_pos ⟨Or.inr rfl, by rw [hid]; rfl⟩, hid]
    · rw [if_neg hk, filterFoldl_get?]
      by_cases hc : k ∈ fields ∧ (Dict.get? doc k).isSome
      · rw [if_pos hc, if_pos ⟨Or.inl hc.1, hc.2⟩]
      · have hn : ¬ ((k ∈ fields ∨ k = "_id") ∧ (Dict.get? doc k).isSome) := by
          rintro ⟨hor, hs⟩
          rcases hor with hm | hm
          · exact hc ⟨hm, hs⟩
          · exact hk hm
        rw [if_neg hc, if_neg hn]
        rfl
  | none =>
    simp only
    rw [filterFoldl_get?]
    by_cases hc : k ∈ fields ∧ (Dict.get? doc k).isSome
    · rw [if_pos hc, if_pos ⟨Or.inl hc.1, hc.2⟩]
    · have hn : ¬ ((k ∈ fields ∨ k = "_id") ∧ (Dict.get? doc k).isSome) := by
        rintro ⟨hor, hs⟩
        rcases hor with hm | hm
        · exact hc ⟨hm, hs⟩
        · subst hm
          rw [hid] at hs
          simp at hs
      rw [if_neg hc, if_neg hn]
      rfl

theorem mergeDicts_get? (a b : Dict) (k : String) :
    (Dict.keys b).Nodup →
    Dict.get? (mergeDicts a b) k =
      if (Dict.get? b k).isSome then Dict.get? b k else Dict.get? a k := by
  induction b generalizing a with
  | nil =>
    intro _
    simp [mergeDicts, Dict.get?]
  | cons p rest ih =>
    intro h
    obtain ⟨k0, v0⟩ := p
    simp only [Dict.keys, List.map_cons, List.nodup_cons] at h
    obtain ⟨hk0, hrest⟩ := h
    have step : mergeDicts a ((k0, v0) :: rest) = mergeDicts (Dict.insert a k0 v0) rest := rfl
    rw [step, ih (Dict.insert a k0 v0) (by simpa [Dict.keys] using hrest)]
    by_cases hk : k = k0
    · subst hk
      have hnone : Dict.get? rest k = none :=
        Dict.get?_eq_none_of_not_mem rest k (by simpa [Dict.keys] using hk0)
      rw [hnone, Dict.get?_insert, if_pos rfl]
      simp [Dict.get?]
    · rw [Dict.get?_insert, if_neg hk]
      have hne : ¬ (k0 = k) := fun hh => hk hh.symm
      simp [Dict.get?, hne]

/-
  Path lemmas for MongoDBSearchTool.execute.
-/

theorem executeTr_validate_error (st : Store) (i : RawInputs) (e : String)
    (h : validate i = Except.error e) :
    MongoDBSearchTool.executeTr st i =
      ({ success := false
         error := some ("MongoDB search failed: " ++ e)
         metadata := [("query", rawQuery i)] }, []) := by
  unfold MongoDBSearchTool.executeTr MongoDBSearchTool.executeBodyTr
  rw [h]

theorem executeTr_find_error (st : Store) (i : RawInputs) (si : MongoDBSearchInput)
    (e : StoreErr)
    (hv : validate i = Except.ok si)
    (hf : MongoDBClient.search_documents st si.query si.limit si.skip = Except.error e) :
    MongoDBSearchTool.executeTr st i =
      ({ success := false
         error := some ("MongoDB search failed: " ++ StoreErr.msg e)
         metadata := [("query", rawQuery i)] },
       [StoreCall.find si.query si.limit si.skip]) := by
  unfold MongoDBSearchTool.executeTr MongoDBSearchTool.executeBodyTr
  simp only [hv]
  rw [hf]

theorem executeTr_count_error (st : Store) (i : RawInputs) (si : MongoDBSearchInput)
    (docs : List Dict) (e : StoreErr)
    (hv : validate i = Except.ok si)
    (hf : MongoDBClient.search_documents st si.query si.limit si.skip = Except.ok docs)
    (hc : MongoDBClient.count_documents st si.query = Except.error e) :
    MongoDBSearchTool.executeTr st i =
      ({ success := false
         error := some ("MongoDB search failed: " ++ StoreErr.msg e)
         metadata := [("query", rawQuery i)] },
       [StoreCall.find si.query si.limit si.skip, StoreCall.count si.query]) := by
  unfold MongoDBSearchTool.executeTr MongoDBSearchTool.executeBodyTr
  simp only [hv]
  rw [hf]
  simp only [hc]

theorem executeTr_success (st : Store) (i : RawInputs) (si : MongoDBSearchInput)
    (docs : List Dict) (total : Nat)
    (hv : validate i = Except.ok si)
    (hf : MongoDBClient.search_documents st si.query si.limit si.skip = Except.ok docs)
    (hc : MongoDBClient.count_documents st si.query = Except.ok total) :
    MongoDBSearchTool.executeTr st i =
      ({ success := true
         data := some (vList ((applyFilter si.fields docs).map vObj))
         metadata := successMeta si total (applyFilter si.fields docs).length },
       [StoreCall.find si.query si.limit si.skip, StoreCall.count si.query]) := by
  unfold MongoDBSearchTool.executeTr MongoDBSearchTool.executeBodyTr
  simp only [hv]
  rw [hf]
  simp only [hc]

theorem count_documents_pymongo (st : Store) (q : Dict) (m : String)
    (h : st.countRaw q = Except.error (StoreErr.pymongo m)) :
    MongoDBClient.count_documents st q = Except.ok 0 := by
  unfold MongoDBClient.count_documents
  rw [h]

theorem validate_error_of_limit (i : RawInputs) (e : String)
    (h : vLimit i.limit = Except.error e) :
    ∃ e', validate i = Except.error e' := by
  cases hq : vQuery i.query <;> cases hs : vSkip i.skip <;> cases hf : vFields i.fields <;>
    simp [validate, hq, h, hs, hf]

theorem validate_error_of_skip (i : RawInputs) (e : String)
    (h : vSkip i.skip = Except.error e) :
    ∃ e', validate i = Except.error e' := by
  cases hq : vQuery i.query <;> cases hl : vLimit i.limit <;> cases hf : vFields i.fields <;>
    simp [validate, hq, h, hl, hf]

/-
  Claim theorems.
-/

/-- C2 (confirmed): for every raw input mapping and every store behaviour,
including raising, the search tool execute returns an ExecutionResult and
never propagates a fault: the result is either a success, or a failure
carrying an error message and the known context metadata (the echoed raw
query). -/
theorem claim_C2_execute_never_raises (st : Store) (i : RawInputs) :
    (MongoDBSearchTool.execute st i).success = true ∨
    ((MongoDBSearchTool.execute st i).success = false ∧
     ((MongoDBSearchTool.execute st i).error).isSome = true ∧
     (MongoDBSearchTool.execute st i).metadata = [("query", rawQuery i)]) := by
  unfold MongoDBSearchTool.execute
  cases hv : validate i with
  | error e =>
    rw [executeTr_validate_error st i e hv]
    exact Or.inr ⟨rfl, rfl, rfl⟩
  | ok si =>
    cases hf : MongoDBClient.search_documents st si.query si.limit si.skip with
    | error e =>
      rw [executeTr_find_error st i si e hv hf]
      exact Or.inr ⟨rfl, rfl, rfl⟩
    | ok docs =>
      cases hc : MongoDBClient.count_documents st si.query with
      | error e =>
        rw [executeTr_count_error st i si docs e hv hf hc]
        exact Or.inr ⟨rfl, rfl, rfl⟩
      | ok total =>
        rw [executeTr_success st i si docs total hv hf hc]
        exact Or.inl rfl

/-- C3 (confirmed): with limit outside 1..100 or negative skip, execute
fails on validation (the pydantic constructor raises) with zero store
calls observable and a failure envelope. -/
theorem claim_C3_validation_blocks_store (st : Store) (qv fv : Option Value) (l s : Int)
    (h : l < 1 ∨ 100 < l ∨ s < 0) :
    (∃ e, validate ⟨qv, some (vInt l), some (vInt s), fv⟩ = Except.error e) ∧
    (MongoDBSearchTool.executeTr st ⟨qv, some (vInt l), some (vInt s), fv⟩).2 = [] ∧
    (MongoDBSearchTool.executeTr st ⟨qv, some (vInt l), some (vInt s), fv⟩).1.success = false ∧
    ((MongoDBSearchTool.executeTr st ⟨qv, some (vInt l), some (vInt s), fv⟩).1.error).isSome
      = true := by
  have herr : ∃ e, validate ⟨qv, some (vInt l), some (vInt s), fv⟩ = Except.error e := by
    rcases h with h | h | h
    · apply validate_error_of_limit
      show vLimit (some (vInt l)) = _
      simp only [vLimit, if_pos h]
      rfl
    · apply validate_error_of_limit
      show vLimit (some (vInt l)) = _
      have h1 : ¬ (l < 1) := by omega
      simp only [vLimit, if_neg h1, if_pos h]
      rfl
    · apply validate_error_of_skip
      show vSkip (some (vInt s)) = _
      simp only [vSkip, if_pos h]
      rfl
  obtain ⟨e, he⟩ := herr
  refine ⟨⟨e, he⟩, ?_, ?_, ?_⟩
  · rw [executeTr_validate_error st _ e he]
  · rw [executeTr_validate_error st _ e he]
  · rw [executeTr_validate_error st _ e he]
    rfl

/-- C3 witness: limit 0 with an ordinary store makes no store call and
fails. -/
theorem claim_C3_witness :
    (MongoDBSearchTool.executeTr store25 ⟨some (vObj []), some (vInt 0), some (vInt 0), none⟩).2
      = [] ∧
    (MongoDBSearchTool.executeTr store25
      ⟨some (vObj []), some (vInt 0), some (vInt 0), none⟩).1.success = false := by
  have h := claim_C3_validation_blocks_store store25 (some (vObj [])) none 0 0
    (Or.inl (by omega))
  exact ⟨h.2.1, h.2.2.1⟩

/-- C4 (confirmed): the field projection keeps exactly the requested keys
that are present in the record plus the identifier key whenever present;
everything else is dropped and requested-but-absent keys are omitted. The
two concrete conjuncts are the round-trip examples (a Python dict compares
by key-value pairs, so the insertion order a then _id is the same
mapping). -/
theorem claim_C4_field_projection :
    (∀ (fields : List String) (doc : Dict) (k : String),
      Dict.get? (filterFields fields doc) k =
        if (k ∈ fields ∨ k = "_id") ∧ (Dict.get? doc k).isSome
        then Dict.get? doc k else none) ∧
    filterFields ["a"] [("_id", vStr "x"), ("a", vInt 1), ("b", vInt 2)]
      = [("a", vInt 1), ("_id", vStr "x")] ∧
    filterFields ["c"] [("_id", vStr "x"), ("a", vInt 1), ("b", vInt 2)]
      = [("_id", vStr "x")] :=
  ⟨filterFields_get?, rfl, rfl⟩

/-- C5 (confirmed): on the success path the metadata fields satisfy the
stated relations: returned_count is the length of the returned data,
query, limit and skip echo the validated inputs, total_count is the store
count, and has_more is total_count greater than skip plus returned_count. -/
theorem claim_C5_success_metadata (st : Store) (i : RawInputs) (si : MongoDBSearchInput)
    (docs : List Dict) (total : Nat)
    (hv : validate i = Except.ok si)
    (hf : MongoDBClient.search_documents st si.query si.limit si.skip = Except.ok docs)
    (hc : MongoDBClient.count_documents st si.query = Except.ok total) :
    (MongoDBSearchTool.execute st i).success = true ∧
    (MongoDBSearchTool.execute st i).data
      = some (vList ((applyFilter si.fields docs).map vObj)) ∧
    Dict.get? (MongoDBSearchTool.execute st i).metadata "total_count"
      = some (vInt total) ∧
    Dict.get? (MongoDBSearchTool.execute st i).metadata "returned_count"
      = some (vInt ((applyFilter si.fields docs).length)) ∧
    Dict.get? (MongoDBSearchTool.execute st i).metadata "query"
      = some (vObj si.query) ∧
    Dict.get? (MongoDBSearchTool.execute st i).metadata "limit"
      = some (vInt si.limit) ∧
    Dict.get? (MongoDBSearchTool.execute st i).metadata "skip"
      = some (vInt si.skip) ∧
    Dict.get? (MongoDBSearchTool.execute st i).metadata "has_more"
      = some (vBool (decide ((total : Int) > si.skip
          + ((applyFilter si.fields docs).length : Int)))) := by
  unfold MongoDBSearchTool.execute
  rw [executeTr_success st i si docs total hv hf hc]
  exact ⟨rfl, rfl, rfl, rfl, rfl, rfl, rfl, rfl⟩

/-- C5 witness: a store with 25 matching records; limit 10 skip 0 gives
total_count 25, returned_count 10, has_more true; limit 10 skip 20 gives
returned_count 5, has_more false. -/
theorem claim_C5_witness :
    Dict.get? (MongoDBSearchTool.execute store25 basicInputs).metadata "total_count"
      = some (vInt 25) ∧
    Dict.get? (MongoDBSearchTool.execute store25 basicInputs).metadata "returned_count"
      = some (vInt 10) ∧
    Dict.get? (MongoDBSearchTool.execute store25 basicInputs).metadata "has_more"
      = some (vBool true) ∧
    Dict.get? (MongoDBSearchTool.execute store25
        ⟨some (vObj []), some (vInt 10), some (vInt 20), none⟩).metadata "returned_count"
      = some (vInt 5) ∧
    Dict.get? (MongoDBSearchTool.execute store25
        ⟨some (vObj []), some (vInt 10), some (vInt 20), none⟩).metadata "has_more"
      = some (vBool false) := by
  have h1 := claim_C5_success_metadata store25 basicInputs ⟨[], 10, 0, none⟩
    (((docs25.drop (0 : Int).toNat).take (10 : Int).toNat).map stringifyId) 25 rfl rfl rfl
  have h2 := claim_C5_success_metadata store25
    ⟨some (vObj []), some (vInt 10), some (vInt 20), none⟩ ⟨[], 10, 20, none⟩
    (((docs25.drop (20 : Int).toNat).take (10 : Int).toNat).map stringifyId) 25 rfl rfl rfl
  refine ⟨?_, ?_, ?_, ?_, ?_⟩
  · rw [h1.2.2.1]
    rfl
  · rw [h1.2.2.2.1]
    rfl
  · rw [h1.2.2.2.2.2.2.2]
    rfl
  · rw [h2.2.2.2.1]
    rfl
  · rw [h2.2.2.2.2.2.2.2]
    rfl

/-- C8 (confirmed): for every decoded ExecutionRequest and every behaviour
of the dispatched execution, including an exception escaping dispatch, the
execute endpoint answers with HTTP status 200; operation failure lives only
in the body. -/
theorem claim_C8_http_status_always_200
    (dispatch : MCPRequest → Except String ToolOutput) (req : MCPRequest) :
    (serverExecuteHTTP dispatch req).1 = 200 := by
  unfold serverExecuteHTTP
  cases dispatch req <;> rfl

/-- C1 counterexample: a store whose underlying count raises a PyMongoError
while the paginated query succeeds. The claim says any store-call exception
yields a failure envelope and that a failed count never yields a success
result with an invented total_count default; here the count call raises,
yet execute returns success with total_count 0, because
MongoDBClient.count_documents catches the PyMongoError and returns 0. -/
theorem claim_C1_counterexample :
    storeCountFail.countRaw [] = Except.error (StoreErr.pymongo "connection lost") ∧
    (MongoDBSearchTool.execute storeCountFail basicInputs).success = true ∧
    Dict.get? (MongoDBSearchTool.execute storeCountFail basicInputs).metadata "total_count"
      = some (vInt 0) :=
  ⟨rfl, rfl, rfl⟩

/-- C1 (amended): if the paginated query raises, execute returns the
failure envelope with the search-failed prefix, the cause and the echoed
raw query; if the underlying count raises a PyMongoError, the store client
swallows it into a count of 0, so execute returns a success result with
total_count 0; only a non-PyMongoError exception from the count produces
the failure envelope. -/
theorem claim_C1_amended :
    (∀ (st : Store) (i : RawInputs) (si : MongoDBSearchInput) (e : StoreErr),
      validate i = Except.ok si →
      MongoDBClient.search_documents st si.query si.limit si.skip = Except.error e →
      MongoDBSearchTool.execute st i =
        { success := false
          error := some ("MongoDB search failed: " ++ StoreErr.msg e)
          metadata := [("query", rawQuery i)] }) ∧
    (∀ (st : Store) (i : RawInputs) (si : MongoDBSearchInput) (docs : List Dict) (m : String),
      validate i = Except.ok si →
      MongoDBClient.search_documents st si.query si.limit si.skip = Except.ok docs →
      st.countRaw si.query = Except.error (StoreErr.pymongo m) →
      (MongoDBSearchTool.execute st i).success = true ∧
      Dict.get? (MongoDBSearchTool.execute st i).metadata "total_count" = some (vInt 0)) ∧
    (∀ (st : Store) (i : RawInputs) (si : MongoDBSearchInput) (docs : List Dict) (m : String),
      validate i = Except.ok si →
      MongoDBClient.search_documents st si.query si.limit si.skip = Except.ok docs →
      st.countRaw si.query = Except.error (StoreErr.other m) →
      MongoDBSearchTool.execute st i =
        { success := false
          error := some ("MongoDB search failed: " ++ m)
          metadata := [("query", rawQuery i)] }) := by
  refine ⟨?_, ?_, ?_⟩
  · intro st i si e hv hf
    unfold MongoDBSearchTool.execute
    rw [executeTr_find_error st i si e hv hf]
  · intro st i si docs m hv hf hco
    have hc : MongoDBClient.count_documents st si.query = Except.ok 0 :=
      count_documents_pymongo st si.query m hco
    unfold MongoDBSearchTool.execute
    rw [executeTr_success st i si docs 0 hv hf hc]
    exact ⟨rfl, rfl⟩
  · intro st i si docs m hv hf hco
    have hc : MongoDBClient.count_documents st si.query
        = Except.error (StoreErr.other m) := by
      unfold MongoDBClient.count_documents
      rw [hco]
    unfold MongoDBSearchTool.execute
    rw [executeTr_count_error st i si docs (StoreErr.other m) hv hf hc]
    rfl

/-- C1 witness: the three amended branches at concrete stores: a failing
find gives the failure envelope; a PyMongoError count gives success with
total_count 0; a non-PyMongoError count gives the failure envelope. -/
theorem claim_C1_witness :
    (MongoDBSearchTool.execute storeFindFail basicInputs).error
      = some "MongoDB search failed: no reachable servers" ∧
    (MongoDBSearchTool.execute storeCountFail basicInputs).success = true ∧
    (MongoDBSearchTool.execute storeCountOtherFail basicInputs).error
      = some "MongoDB search failed: interrupted" := by
  have h1 := claim_C1_amended.1 storeFindFail basicInputs ⟨[], 10, 0, none⟩
    (StoreErr.pymongo "no reachable servers") rfl rfl
  have h2 := (claim_C1_amended.2.1 storeCountFail basicInputs ⟨[], 10, 0, none⟩
    ([[("_id", vStr "x"), ("a", vInt 1)]].map stringifyId) "connection lost" rfl rfl rfl).1
  have h3 := claim_C1_amended.2.2 storeCountOtherFail basicInputs ⟨[], 10, 0, none⟩
    [] "interrupted" rfl rfl rfl
  refine ⟨?_, h2, ?_⟩
  · rw [h1]
    rfl
  · rw [h3]
    rfl

/-- C6 (confirmed): dispatch of an unregistered name returns the
not-found envelope: success false, an error message containing the phrase
not found and the requested name, and available_tools listing every
registered name. -/
theorem claim_C6_tool_not_found (h : ToolHandler) (name : String) (i : RawInputs)
    (hn : ToolHandler.getTool h name = none) :
    ToolHandler.execute_tool h name i =
      { success := false
        error := some ("Tool '" ++ name ++ "' not found")
        metadata := [("available_tools",
          vList ((ToolHandler.availableTools h).map vStr))] } ∧
    (∃ pre post : String, "Tool '" ++ name ++ "' not found" = pre ++ "not found" ++ post) ∧
    (∃ pre post : String, "Tool '" ++ name ++ "' not found" = pre ++ name ++ post) := by
  refine ⟨?_, ⟨"Tool '" ++ name ++ "' ", "", ?_⟩, ⟨"Tool '", "' not found", rfl⟩⟩
  · unfold ToolHandler.execute_tool
    rw [hn]
  · rw [String.append_empty, String.append_assoc, String.append_assoc]
    have hs : "' " ++ "not found" = "' not found" := rfl
    rw [hs, String.append_assoc]

/-- C6 witness: the default handler with only mongodb_search registered,
dispatching the unregistered name nonexistent. -/
theorem claim_C6_witness :
    ToolHandler.execute_tool (defaultHandler store25) "nonexistent" basicInputs =
      { success := false
        error := some "Tool 'nonexistent' not found"
        metadata := [("available_tools", vList [vStr "mongodb_search"])] } := by
  have h := (claim_C6_tool_not_found (defaultHandler store25) "nonexistent" basicInputs rfl).1
  rw [h]
  rfl

/-- The dispatch and request used by the C7 witness. -/
def d7 : MCPRequest → Except String ToolOutput :=
  fun _ => Except.ok { success := true, metadata := [("x", vInt 2), ("y", vInt 3)] }

/-- The C7 witness request, carrying metadata x maps to 1. -/
def req7 : MCPRequest := ⟨"mongodb_search", ⟨none, none, none, none⟩, [("x", vInt 1)]⟩

/-- C7 (confirmed): the execute endpoint response metadata is the request
metadata overlaid by the result metadata: a key present in the result wins,
a key present only in the request is preserved. -/
theorem claim_C7_metadata_merge (dispatch : MCPRequest → Except String ToolOutput)
    (req : MCPRequest) (r : ToolOutput) (k : String)
    (hd : dispatch req = Except.ok r)
    (hn : (Dict.keys r.metadata).Nodup) :
    Dict.get? (serverExecuteHTTP dispatch req).2.metadata k =
      if (Dict.get? r.metadata k).isSome then Dict.get? r.metadata k
      else Dict.get? req.metadata k := by
  unfold serverExecuteHTTP
  rw [hd]
  exact mergeDicts_get? req.metadata r.metadata k hn

/-- C7 witness: request metadata x maps to 1, result metadata x maps to 2
and y maps to 3; the response metadata is x maps to 2, y maps to 3. -/
theorem claim_C7_witness :
    Dict.get? (serverExecuteHTTP d7 req7).2.metadata "x" = some (vInt 2) ∧
    Dict.get? (serverExecuteHTTP d7 req7).2.metadata "y" = some (vInt 3) ∧
    (serverExecuteHTTP d7 req7).2.metadata = [("x", vInt 2), ("y", vInt 3)] := by
  have hx := claim_C7_metadata_merge d7 req7
    { success := true, metadata := [("x", vInt 2), ("y", vInt 3)] } "x" rfl (by decide)
  have hy := claim_C7_metadata_merge d7 req7
    { success := true, metadata := [("x", vInt 2), ("y", vInt 3)] } "y" rfl (by decide)
  refine ⟨?_, ?_, rfl⟩
  · rw [hx]
    rfl
  · rw [hy]
    rfl

theorem search_documents_trace (t : Transport) (q : Dict) (limit skip : Int)
    (fields : Option (List String)) :
    (MCPClient.search_documents t q limit skip fields).2
      = [buildSearchRequest q limit skip fields] := by
  unfold MCPClient.search_documents
  cases h : t (buildSearchRequest q limit skip fields) <;> simp [h]

/-- C9 counterexample: with a transport that raises (network down), the
fallback envelope of MCPClient.search_documents carries empty metadata,
which is falsy, so process_prompt adds neither original_prompt nor
query_type; the claim says they are always added to the returned result
metadata. -/
theorem claim_C9_counterexample :
    Dict.get? (MCPClient.process_prompt downTransport "python").1 "metadata"
      = some (vObj []) ∧
    Dict.get? (MCPClient.process_prompt downTransport "python").1 "success"
      = some (vBool false) :=
  ⟨rfl, rfl⟩

/-- C9 (amended): process_prompt always sends exactly one request, built
from the lower-cased and stripped prompt as the three-field case-insensitive
regex OR filter with limit 20 and skip 0 and no fields; and whenever the
search result metadata is a non-empty object (truthy), the returned
metadata contains original_prompt bound to the untransformed prompt and
query_type bound to text_search. When the result metadata is empty or
absent (e.g. the transport-failure fallback), nothing is added. -/
theorem claim_C9_amended (t : Transport) (prompt : String) :
    (MCPClient.process_prompt t prompt).2 =
      [buildSearchRequest (promptQuery (pyStrip (pyLower prompt))) 20 0 none] ∧
    (∀ (res : Dict) (kv : String × Value) (kvs : List (String × Value)),
      t (buildSearchRequest (promptQuery (pyStrip (pyLower prompt))) 20 0 none)
        = Except.ok res →
      Dict.get? res "metadata" = some (vObj (kv :: kvs)) →
      ∃ md : Dict,
        Dict.get? (MCPClient.process_prompt t prompt).1 "metadata" = some (vObj md) ∧
        Dict.get? md "original_prompt" = some (vStr prompt) ∧
        Dict.get? md "query_type" = some (vStr "text_search")) := by
  constructor
  · show (MCPClient.search_documents t
      (promptQuery (pyStrip (pyLower prompt))) 20 0 none).2 = _
    exact search_documents_trace t _ 20 0 none
  · rintro res kv kvs ht hm
    have hsd : MCPClient.search_documents t
        (promptQuery (pyStrip (pyLower prompt))) 20 0 none
        = (res, [buildSearchRequest (promptQuery (pyStrip (pyLower prompt))) 20 0 none]) := by
      simp only [MCPClient.search_documents]
      rw [ht]
    have hp1 : (MCPClient.process_prompt t prompt).1
        = MCPClient.promptPostProcess prompt res := by
      show MCPClient.promptPostProcess prompt
        (MCPClient.search_documents t
          (promptQuery (pyStrip (pyLower prompt))) 20 0 none).1 = _
      rw [hsd]
    refine ⟨Dict.insert (Dict.insert (kv :: kvs) "original_prompt" (vStr prompt))
      "query_type" (vStr "text_search"), ?_, ?_, ?_⟩
    · rw [hp1]
      unfold MCPClient.promptPostProcess
      rw [hm]
      show Dict.get? (Dict.insert res "metadata"
        (vObj (Dict.insert (Dict.insert (kv :: kvs) "original_prompt" (vStr prompt))
          "query_type" (vStr "text_search")))) "metadata" = _
      rw [Dict.get?_insert, if_pos rfl]
    · rw [Dict.get?_insert, if_neg (by decide), Dict.get?_insert, if_pos rfl]
    · rw [Dict.get?_insert, if_pos rfl]

/-- C9 witness: a transport answering with a successful envelope whose
metadata object is non-empty; the enriched metadata carries both keys. -/
theorem claim_C9_witness :
    ∃ md : Dict,
      Dict.get? (MCPClient.process_prompt okTransport "python").1 "metadata"
        = some (vObj md) ∧
      Dict.get? md "original_prompt" = some (vStr "python") ∧
      Dict.get? md "query_type" = some (vStr "text_search") :=
  (claim_C9_amended okTransport "python").2
    [("success", vBool true), ("data", vList []), ("error", vNull),
     ("metadata", vObj [("a", vInt 1)])]
    ("a", vInt 1) [] rfl rfl

/-- C10 (confirmed): an empty fields list is falsy in Python, so the
projection branch is skipped exactly as when fields is absent: execute
returns the identical result and makes the identical store calls. -/
theorem claim_C10_empty_fields_like_absent (st : Store) (qv lv sv : Option Value) :
    MongoDBSearchTool.executeTr st ⟨qv, lv, sv, some (vList [])⟩ =
    MongoDBSearchTool.executeTr st ⟨qv, lv, sv, none⟩ := by
  have hf1 : vFields (some (vList [])) = Except.ok (some []) := rfl
  have hf2 : vFields (none : Option Value) = Except.ok none := rfl
  unfold MongoDBSearchTool.executeTr MongoDBSearchTool.executeBodyTr validate
  rw [hf1, hf2]
  cases hq : vQuery qv with
  | error e => rfl
  | ok q =>
    cases hl : vLimit lv with
    | error e => rfl
    | ok l =>
      cases hs : vSkip sv with
      | error e => rfl
      | ok s =>
        cases hsd : MongoDBClient.search_documents st q l s with
        | error e => rfl
        | ok docs =>
          cases hc : MongoDBClient.count_documents st q with
          | error e => rfl
          | ok total => rfl
